import Mathlib

/-!
# GC trigger policy (`kotlin-native/runtime/src/gc/common/cpp/GCScheduler.cpp`)

A shallow embedding of the scheduler that decides when a full collection is requested.

Conventions of the embedding.

* `size_t` counters and the `uint64_t` microsecond timestamps are natural numbers. The only
  arithmetic the source performs is the unsigned subtraction in `GCThreadData::OnSafePoint`;
  it is `uint64Sub`, taken modulo `2 ^ 64`. All other uses are comparisons and assignments.
* The injected time source is an object with effects: it is a sequence of readings together
  with the number of calls made so far, and calling it advances that number.
* A C++ reference is represented by the state of the object it denotes. `GCThreadData` keeps
  the configuration it refers to; `ThreadData` refers to objects that outlive it and are
  changed by others, so its methods take and return the state `σ` of those objects.
-/

set_option linter.unusedVariables false

namespace gc

/-- Tunable parameters, `gc::GCSchedulerConfig`: the safepoint-count threshold, the
allocation threshold in bytes, and the cooldown in microseconds. -/
structure GCSchedulerConfig where
  threshold : Nat
  allocationThresholdBytes : Nat
  cooldownThresholdUs : Nat
deriving DecidableEq, Repr

namespace GCSchedulerConfig

/-- The constructor `GCSchedulerConfig()`. The argument `gcAggressive` is the value that
`compiler::gcAggressive()` returns; the function is declared in `CompilerConstants.hpp` and
its body is not among the sources. The argument `defaults` holds the default values of the
three members, written in `GCScheduler.hpp`, which is not among the sources either. -/
def new (gcAggressive : Bool) (defaults : GCSchedulerConfig) : GCSchedulerConfig :=
  if gcAggressive then
    { defaults with
      threshold := 1000
      allocationThresholdBytes := 10000
      cooldownThresholdUs := 0 }
  else defaults

end GCSchedulerConfig

/-- Modelled from the spec: the types of `timeOfLastGcUs_`, of `cooldownThresholdUs` and of
the value the time source returns are declared in `GCScheduler.hpp`, which is not among the
sources; they are unsigned microsecond counts, 64 bits wide. This is the subtraction of two
such values as the machine performs it: the difference is taken modulo `2 ^ 64`, so a smaller
minuend wraps around. Both operands are below `2 ^ 64`. -/
def uint64Sub (a b : Nat) : Nat :=
  (a + 2 ^ 64 - b) % 2 ^ 64

/-- The time source `CurrentTimeCallback` (a `std::function` returning microseconds):
`readings k` is the value returned by call number `k`, and `calls` counts the calls made. -/
structure CurrentTimeCallback where
  readings : Nat → Nat
  calls : Nat

namespace CurrentTimeCallback

/-- The value the next call of the time source returns. -/
def now (cb : CurrentTimeCallback) : Nat :=
  cb.readings cb.calls

/-- One call `currentTimeCallbackUs_()`: the reading, and the time source after the call. -/
def call (cb : CurrentTimeCallback) : Nat × CurrentTimeCallback :=
  (cb.now, { cb with calls := cb.calls + 1 })

end CurrentTimeCallback

namespace GCScheduler

/-- The shared timer, `gc::GCScheduler::GCThreadData`: the configuration that `config_`
refers to, the time source, and the time of the last full collection. -/
structure GCThreadData where
  config_ : GCSchedulerConfig
  currentTimeCallbackUs_ : CurrentTimeCallback
  timeOfLastGcUs_ : Nat

namespace GCThreadData

/-- The constructor `GCThreadData(config, currentTimeCallbackUs)`: the time of the last
collection starts at a reading of the time source. -/
def new (config : GCSchedulerConfig) (currentTimeCallbackUs : CurrentTimeCallback) :
    GCThreadData :=
  { config_ := config
    currentTimeCallbackUs_ := currentTimeCallbackUs.call.2
    timeOfLastGcUs_ := currentTimeCallbackUs.call.1 }

/-- The decision `GCThreadData::OnSafePoint(allocatedBytes, safePointsCounter)`: the verdict
and the timer afterwards. The time source is called only when the byte threshold is not
exceeded. -/
def OnSafePoint (self : GCThreadData) (allocatedBytes safePointsCounter : Nat) :
    Bool × GCThreadData :=
  if allocatedBytes > self.config_.allocationThresholdBytes then (true, self)
  else
    (decide (uint64Sub self.currentTimeCallbackUs_.call.1 self.timeOfLastGcUs_
        ≥ self.config_.cooldownThresholdUs),
      { self with currentTimeCallbackUs_ := self.currentTimeCallbackUs_.call.2 })

/-- The completion hook `GCThreadData::OnPerformFullGC()`. -/
def OnPerformFullGC (self : GCThreadData) : GCThreadData :=
  { self with
    currentTimeCallbackUs_ := self.currentTimeCallbackUs_.call.2
    timeOfLastGcUs_ := self.currentTimeCallbackUs_.call.1 }

end GCThreadData

/-- Per-thread counters, `gc::GCScheduler::ThreadData`, over the state `σ` of the objects it
refers to: `config_` reads the shared configuration out of that state, and `onSafePoint_` is
the decision callback, which may read and change it. -/
structure ThreadData (σ : Type) where
  config_ : σ → GCSchedulerConfig
  onSafePoint_ : Nat → Nat → σ → Bool × σ
  allocatedBytes_ : Nat
  allocatedBytesThreshold_ : Nat
  safePointsCounter_ : Nat
  safePointsCounterThreshold_ : Nat

namespace ThreadData

variable {σ : Type}

/-- Modelled from the spec: the constructor `ThreadData(config, onSafePoint)` is declared in
`GCScheduler.hpp`, which is not among the sources. By the data model of the spec the object
keeps a reference to the shared configuration and the decision callback bound at
registration. The spec does not say what the two counters and the two cached thresholds start
at, so their initial values are parameters. -/
def new (config : σ → GCSchedulerConfig) (onSafePoint : Nat → Nat → σ → Bool × σ)
    (allocatedBytes allocatedBytesThreshold safePointsCounter safePointsCounterThreshold : Nat) :
    ThreadData σ :=
  { config_ := config
    onSafePoint_ := onSafePoint
    allocatedBytes_ := allocatedBytes
    allocatedBytesThreshold_ := allocatedBytesThreshold
    safePointsCounter_ := safePointsCounter
    safePointsCounterThreshold_ := safePointsCounterThreshold }

/-- The reset `ThreadData::ClearCountersAndUpdateThresholds()`, reading the shared
configuration in the state `env`. -/
def ClearCountersAndUpdateThresholds (self : ThreadData σ) (env : σ) : ThreadData σ :=
  { self with
    allocatedBytes_ := 0
    safePointsCounter_ := 0
    allocatedBytesThreshold_ := (self.config_ env).allocationThresholdBytes
    safePointsCounterThreshold_ := (self.config_ env).threshold }

/-- The slow path `ThreadData::OnSafePointSlowPath()`: the verdict, the thread data after the
call, and the state of the referenced objects after the call. -/
def OnSafePointSlowPath (self : ThreadData σ) (env : σ) : Bool × ThreadData σ × σ :=
  ((self.onSafePoint_ self.allocatedBytes_ self.safePointsCounter_ env).1,
    self.ClearCountersAndUpdateThresholds
      (self.onSafePoint_ self.allocatedBytes_ self.safePointsCounter_ env).2,
    (self.onSafePoint_ self.allocatedBytes_ self.safePointsCounter_ env).2)

end ThreadData

end GCScheduler

/-- The scheduler, `gc::GCScheduler`. Its timer `gcThreadData_` refers to the member
`config_`; the configuration is stored once, inside the timer, so both denote one object. -/
structure GCScheduler where
  gcThreadData_ : GCScheduler.GCThreadData

namespace GCScheduler

/-- The member `config_` of the scheduler. -/
def config_ (self : GCScheduler) : GCSchedulerConfig :=
  self.gcThreadData_.config_

/-- The accessor `gcThreadData()`. -/
def gcThreadData (self : GCScheduler) : GCThreadData :=
  self.gcThreadData_

/-- The factory `GCScheduler::NewThreadData()`. The state the new object refers to is the
scheduler itself: the callback captures `this` and asks the timer of the scheduler as it is
when the callback runs. The last four arguments are the initial values of the numeric
members, see `ThreadData.new`. -/
def NewThreadData
    (allocatedBytes allocatedBytesThreshold safePointsCounter safePointsCounterThreshold : Nat) :
    ThreadData GCScheduler :=
  ThreadData.new (fun this => this.config_)
    (fun allocatedBytes safePointsCounter this =>
      ((this.gcThreadData.OnSafePoint allocatedBytes safePointsCounter).1,
        { this with
          gcThreadData_ := (this.gcThreadData.OnSafePoint allocatedBytes safePointsCounter).2 }))
    allocatedBytes allocatedBytesThreshold safePointsCounter safePointsCounterThreshold

end GCScheduler

/-! ## Sequences of operations on a scheduler -/

/-- One operation on a scheduler: a direct call of the decision function of the timer, the
completion hook of a full collection, or the slow path of a thread made by `NewThreadData`
whose numeric members hold the four given values. -/
inductive Operation where
  | onSafePoint (allocatedBytes safePointsCounter : Nat)
  | onPerformFullGC
  | onSafePointSlowPath
      (allocatedBytes allocatedBytesThreshold safePointsCounter safePointsCounterThreshold : Nat)

namespace Operation

/-- The scheduler after one operation. -/
def run (op : Operation) (scheduler : GCScheduler) : GCScheduler :=
  match op with
  | onSafePoint allocatedBytes safePointsCounter =>
    { scheduler with
      gcThreadData_ := (scheduler.gcThreadData.OnSafePoint allocatedBytes safePointsCounter).2 }
  | onPerformFullGC =>
    { scheduler with gcThreadData_ := scheduler.gcThreadData.OnPerformFullGC }
  | onSafePointSlowPath allocatedBytes allocatedBytesThreshold safePointsCounter
      safePointsCounterThreshold =>
    (GCScheduler.ThreadData.OnSafePointSlowPath
      (GCScheduler.NewThreadData allocatedBytes allocatedBytesThreshold safePointsCounter
        safePointsCounterThreshold) scheduler).2.2

/-- The scheduler after a sequence of operations, run from left to right. -/
def runAll (ops : List Operation) (scheduler : GCScheduler) : GCScheduler :=
  match ops with
  | [] => scheduler
  | op :: rest => runAll rest (op.run scheduler)

end Operation

/-- The time source does not go backward from its next call on, and the time of the last
collection is not ahead of the next reading. -/
def ClockAhead (g : GCScheduler.GCThreadData) : Prop :=
  (∀ k, g.currentTimeCallbackUs_.calls ≤ k →
      g.currentTimeCallbackUs_.readings k ≤ g.currentTimeCallbackUs_.readings (k + 1)) ∧
    g.timeOfLastGcUs_ ≤ g.currentTimeCallbackUs_.now

/-! ## Sample states used to run the definitions -/

/-- A time source whose call number `k` returns `t + k`. -/
def tickingClock (t : Nat) : CurrentTimeCallback :=
  { readings := fun k => t + k, calls := 0 }

/-- The configuration of the scenarios: safepoint threshold 100000, allocation threshold 10000
bytes, cooldown 500000 microseconds. -/
def scenarioConfig : GCSchedulerConfig :=
  { threshold := 100000, allocationThresholdBytes := 10000, cooldownThresholdUs := 500000 }

/-- A time source that returns `t` at every call. -/
def steadyClock (t : Nat) : CurrentTimeCallback :=
  { readings := fun _ => t, calls := 0 }

/-- A timer with configuration `config` whose last collection was at `last` and whose time
source reads `t`. -/
def timerAt (config : GCSchedulerConfig) (last t : Nat) : GCScheduler.GCThreadData :=
  { config_ := config, currentTimeCallbackUs_ := steadyClock t, timeOfLastGcUs_ := last }

/-! ## Arithmetic of the elapsed time -/

theorem uint64Sub_self (a : Nat) : uint64Sub a a = 0 := by
  unfold uint64Sub
  have h : a + 2 ^ 64 - a = 2 ^ 64 := by omega
  rw [h, Nat.mod_self]

theorem uint64Sub_of_le {a b : Nat} (hba : b ≤ a) (ha : a < 2 ^ 64) :
    uint64Sub a b = a - b := by
  unfold uint64Sub
  have h : a + 2 ^ 64 - b = (a - b) + 2 ^ 64 := by omega
  rw [h, Nat.add_mod_right, Nat.mod_eq_of_lt (by omega)]

theorem uint64Sub_of_lt {a b : Nat} (hab : a < b) (hb : b < 2 ^ 64) :
    uint64Sub a b = 2 ^ 64 - (b - a) := by
  unfold uint64Sub
  exact Nat.mod_eq_of_lt (by omega) |>.trans (by omega)

/-! ## The decision function of the timer -/

open GCScheduler

/-- C1: whenever `allocatedBytes` exceeds `config.allocationThresholdBytes`,
`GCThreadData::OnSafePoint` returns true, for every timer state (any time of the last
collection, any time source, any cooldown) and every safepoint count. -/
theorem OnSafePoint_true_of_allocatedBytes_gt (self : GCThreadData)
    (allocatedBytes safePointsCounter : Nat)
    (h : allocatedBytes > self.config_.allocationThresholdBytes) :
    (self.OnSafePoint allocatedBytes safePointsCounter).1 = true := by
  simp [GCThreadData.OnSafePoint, h]

/-- Witness of C1: threshold 10000, cooldown 500000, 12000 bytes and zero elapsed time. -/
theorem OnSafePoint_true_of_allocatedBytes_gt_witness :
    12000 > (timerAt scenarioConfig 7 7).config_.allocationThresholdBytes ∧
      ((timerAt scenarioConfig 7 7).OnSafePoint 12000 0).1 = true :=
  ⟨by decide, OnSafePoint_true_of_allocatedBytes_gt (timerAt scenarioConfig 7 7) 12000 0
    (by decide)⟩

/-- C2: for `allocatedBytes` not above `config.allocationThresholdBytes`, and a time source
whose reading is not behind the time of the last collection, `GCThreadData::OnSafePoint`
returns exactly the boolean `elapsed >= config.cooldownThresholdUs`, where `elapsed` is the
reading minus `timeOfLastGcUs_`. The reading is a `uint64_t` value. -/
theorem OnSafePoint_eq_cooldown_elapsed (self : GCThreadData)
    (allocatedBytes safePointsCounter : Nat)
    (hbytes : allocatedBytes ≤ self.config_.allocationThresholdBytes)
    (hclock : self.timeOfLastGcUs_ ≤ self.currentTimeCallbackUs_.now)
    (hrange : self.currentTimeCallbackUs_.now < 2 ^ 64) :
    (self.OnSafePoint allocatedBytes safePointsCounter).1 =
      decide (self.currentTimeCallbackUs_.now - self.timeOfLastGcUs_
        ≥ self.config_.cooldownThresholdUs) := by
  have hnot : ¬ allocatedBytes > self.config_.allocationThresholdBytes := by omega
  simp only [GCThreadData.OnSafePoint, hnot, if_false, CurrentTimeCallback.call,
    uint64Sub_of_le hclock hrange]

/-- Witness of C2: threshold 10000, cooldown 500000, 500 bytes; elapsed 0 gives false and
elapsed 600000 gives true. -/
theorem OnSafePoint_eq_cooldown_elapsed_witness :
    ((timerAt scenarioConfig 1000 1000).OnSafePoint 500 3).1 = false ∧
      ((timerAt scenarioConfig 1000 601000).OnSafePoint 500 3).1 = true :=
  ⟨(OnSafePoint_eq_cooldown_elapsed (timerAt scenarioConfig 1000 1000) 500 3
      (by decide) (by decide) (by decide)).trans (by decide),
    (OnSafePoint_eq_cooldown_elapsed (timerAt scenarioConfig 1000 601000) 500 3
      (by decide) (by decide) (by decide)).trans (by decide)⟩

/-- C3: with a positive cooldown, `OnPerformFullGC()` followed by `OnSafePoint(0, 0)`, the
time source returning at the second call the value it returned at the first, gives false. -/
theorem OnSafePoint_false_after_OnPerformFullGC (self : GCThreadData)
    (hcooldown : 0 < self.config_.cooldownThresholdUs)
    (himmediate : self.OnPerformFullGC.currentTimeCallbackUs_.now
      = self.currentTimeCallbackUs_.now) :
    (self.OnPerformFullGC.OnSafePoint 0 0).1 = false := by
  have hnot : ¬ 0 > self.OnPerformFullGC.config_.allocationThresholdBytes := by omega
  simp only [GCThreadData.OnSafePoint, hnot, if_false, CurrentTimeCallback.call, himmediate]
  simp only [GCThreadData.OnPerformFullGC, CurrentTimeCallback.call, uint64Sub_self]
  simp only [ge_iff_le, Nat.le_zero_eq, decide_eq_false_iff_not]
  omega

/-- Witness of C3: cooldown 500000, last collection at 3, the time source reading 900000. -/
theorem OnSafePoint_false_after_OnPerformFullGC_witness :
    0 < (timerAt scenarioConfig 3 900000).config_.cooldownThresholdUs ∧
      (timerAt scenarioConfig 3 900000).OnPerformFullGC.currentTimeCallbackUs_.now
        = (timerAt scenarioConfig 3 900000).currentTimeCallbackUs_.now ∧
      ((timerAt scenarioConfig 3 900000).OnPerformFullGC.OnSafePoint 0 0).1 = false :=
  ⟨by decide, rfl,
    OnSafePoint_false_after_OnPerformFullGC (timerAt scenarioConfig 3 900000) (by decide) rfl⟩

/-! ## The slow path of a thread -/

/-- C4: after `ThreadData::OnSafePointSlowPath()` returns, `allocatedBytes_` and
`safePointsCounter_` are both zero, for every thread state, every decision callback and every
state of the shared objects, hence whatever the verdict is. -/
theorem OnSafePointSlowPath_clears_counters {σ : Type} (self : ThreadData σ) (env : σ) :
    (self.OnSafePointSlowPath env).2.1.allocatedBytes_ = 0 ∧
      (self.OnSafePointSlowPath env).2.1.safePointsCounter_ = 0 :=
  ⟨rfl, rfl⟩

/-- C5: for a thread state with counters `(a, s)` and any decision callback `f`,
`ThreadData::OnSafePointSlowPath()` returns the verdict of `f a s`: the callback sees the
counters held before the reset, its verdict is returned unchanged, and the shared objects are
left as the callback left them. -/
theorem OnSafePointSlowPath_returns_callback_verdict {σ : Type}
    (config : σ → GCSchedulerConfig) (f : Nat → Nat → σ → Bool × σ) (a bt s st : Nat)
    (env : σ) :
    (ThreadData.OnSafePointSlowPath
        { config_ := config, onSafePoint_ := f, allocatedBytes_ := a,
          allocatedBytesThreshold_ := bt, safePointsCounter_ := s,
          safePointsCounterThreshold_ := st } env).1 = (f a s env).1 ∧
      (ThreadData.OnSafePointSlowPath
        { config_ := config, onSafePoint_ := f, allocatedBytes_ := a,
          allocatedBytesThreshold_ := bt, safePointsCounter_ := s,
          safePointsCounterThreshold_ := st } env).2.2 = (f a s env).2 :=
  ⟨rfl, rfl⟩

/-- C6: a `ThreadData` made by `GCScheduler::NewThreadData()` is bound to the decision
function of that scheduler: once its counters hold `(a, s)`, its slow path returns what
`gcThreadData().OnSafePoint(a, s)` returns on the scheduler as it is at the call, whatever
the numeric members started at. In the scenario with allocation threshold 10000, cooldown
500000 and 12000 accumulated bytes the verdict is true and both counters end at zero. -/
theorem NewThreadData_bound_to_OnSafePoint :
    (∀ (scheduler : GCScheduler) (b0 bt0 s0 st0 a s : Nat),
      (ThreadData.OnSafePointSlowPath
          { NewThreadData b0 bt0 s0 st0 with allocatedBytes_ := a, safePointsCounter_ := s }
          scheduler).1
        = (scheduler.gcThreadData.OnSafePoint a s).1) ∧
      (ThreadData.OnSafePointSlowPath
          { NewThreadData 0 0 0 0 with allocatedBytes_ := 12000 }
          { gcThreadData_ := timerAt scenarioConfig 7 7 }).1 = true ∧
      (ThreadData.OnSafePointSlowPath
          { NewThreadData 0 0 0 0 with allocatedBytes_ := 12000 }
          { gcThreadData_ := timerAt scenarioConfig 7 7 }).2.1.allocatedBytes_ = 0 ∧
      (ThreadData.OnSafePointSlowPath
          { NewThreadData 0 0 0 0 with allocatedBytes_ := 12000 }
          { gcThreadData_ := timerAt scenarioConfig 7 7 }).2.1.safePointsCounter_ = 0 :=
  ⟨fun _ _ _ _ _ _ _ => rfl, by decide, rfl, rfl⟩

/-- C7: after `ThreadData::OnSafePointSlowPath()` returns, the cached thresholds are the
current values of the shared configuration the thread was given, read after the callback has
run: `allocatedBytesThreshold_` is its `allocationThresholdBytes` and
`safePointsCounterThreshold_` is its `threshold`, for every configuration reference `config`,
every callback `f`, whatever was cached before and whatever the verdict. The thread still
refers to the same configuration afterwards. -/
theorem OnSafePointSlowPath_refreshes_thresholds {σ : Type}
    (config : σ → GCSchedulerConfig) (f : Nat → Nat → σ → Bool × σ) (a bt s st : Nat)
    (env : σ) :
    (ThreadData.OnSafePointSlowPath
        { config_ := config, onSafePoint_ := f, allocatedBytes_ := a,
          allocatedBytesThreshold_ := bt, safePointsCounter_ := s,
          safePointsCounterThreshold_ := st } env).2.1.allocatedBytesThreshold_
        = (config (f a s env).2).allocationThresholdBytes ∧
      (ThreadData.OnSafePointSlowPath
        { config_ := config, onSafePoint_ := f, allocatedBytes_ := a,
          allocatedBytesThreshold_ := bt, safePointsCounter_ := s,
          safePointsCounterThreshold_ := st } env).2.1.safePointsCounterThreshold_
        = (config (f a s env).2).threshold ∧
      (ThreadData.OnSafePointSlowPath
        { config_ := config, onSafePoint_ := f, allocatedBytes_ := a,
          allocatedBytesThreshold_ := bt, safePointsCounter_ := s,
          safePointsCounterThreshold_ := st } env).2.1.config_ = config :=
  ⟨rfl, rfl, rfl⟩

/-! ## Edge cases of the time-based trigger -/

/-- C8: with a zero cooldown `GCThreadData::OnSafePoint` returns true for every allocation
count, safepoint count, time of the last collection and reading of the time source, a
reading earlier than the last collection included. -/
theorem OnSafePoint_true_of_zero_cooldown (self : GCThreadData)
    (allocatedBytes safePointsCounter : Nat)
    (hcooldown : self.config_.cooldownThresholdUs = 0) :
    (self.OnSafePoint allocatedBytes safePointsCounter).1 = true := by
  unfold GCThreadData.OnSafePoint
  split
  · rfl
  · simp [hcooldown]

/-- Witness of C8: the aggressive configuration, with the time source reading 20 while the
last collection was at 50. -/
theorem OnSafePoint_true_of_zero_cooldown_witness :
    (timerAt ⟨1000, 10000, 0⟩ 50 20).config_.cooldownThresholdUs = 0 ∧
      ((timerAt ⟨1000, 10000, 0⟩ 50 20).OnSafePoint 500 1).1 = true :=
  ⟨rfl, OnSafePoint_true_of_zero_cooldown (timerAt ⟨1000, 10000, 0⟩ 50 20) 500 1 rfl⟩

/-- Counterexample to C9 as stated: threshold 10000, cooldown 500000, last collection at
1000, the time source reading 999, 500 bytes: the clock is behind, the cooldown is positive,
the byte threshold is not exceeded, and `OnSafePoint` returns true. -/
theorem OnSafePoint_backward_clock_fires :
    (timerAt scenarioConfig 1000 999).currentTimeCallbackUs_.now
        < (timerAt scenarioConfig 1000 999).timeOfLastGcUs_ ∧
      (timerAt scenarioConfig 1000 999).timeOfLastGcUs_ < 2 ^ 64 ∧
      500 ≤ (timerAt scenarioConfig 1000 999).config_.allocationThresholdBytes ∧
      0 < (timerAt scenarioConfig 1000 999).config_.cooldownThresholdUs ∧
      ((timerAt scenarioConfig 1000 999).OnSafePoint 500 0).1 = true := by
  decide

/-- C9, amended: when the reading of the time source is strictly less than `timeOfLastGcUs_`
(both `uint64_t` values) and `allocatedBytes` is not above the allocation threshold, the
unsigned subtraction wraps around and `GCThreadData::OnSafePoint` returns exactly the boolean
`2 ^ 64 - (timeOfLastGcUs_ - reading) >= config.cooldownThresholdUs`. -/
theorem OnSafePoint_backward_clock_wraps (self : GCThreadData)
    (allocatedBytes safePointsCounter : Nat)
    (hbytes : allocatedBytes ≤ self.config_.allocationThresholdBytes)
    (hback : self.currentTimeCallbackUs_.now < self.timeOfLastGcUs_)
    (hrange : self.timeOfLastGcUs_ < 2 ^ 64) :
    (self.OnSafePoint allocatedBytes safePointsCounter).1 =
      decide (2 ^ 64 - (self.timeOfLastGcUs_ - self.currentTimeCallbackUs_.now)
        ≥ self.config_.cooldownThresholdUs) := by
  have hnot : ¬ allocatedBytes > self.config_.allocationThresholdBytes := by omega
  simp only [GCThreadData.OnSafePoint, hnot, if_false, CurrentTimeCallback.call,
    uint64Sub_of_lt hback hrange]

/-- Witness of the amended C9: cooldown 500000, last collection at 1000, reading 999. -/
theorem OnSafePoint_backward_clock_wraps_witness :
    ((timerAt scenarioConfig 1000 999).OnSafePoint 500 0).1 =
      decide (2 ^ 64 - (1000 - 999) ≥ 500000) :=
  OnSafePoint_backward_clock_wraps (timerAt scenarioConfig 1000 999) 500 0
    (by decide) (by decide) (by decide)

/-- C10: the safepoint count never influences the decision: for every timer state and
allocation count, `OnSafePoint(allocatedBytes, s1)` and `OnSafePoint(allocatedBytes, s2)`
give the same verdict and leave the same timer. -/
theorem OnSafePoint_ignores_safePointsCounter (self : GCThreadData)
    (allocatedBytes s1 s2 : Nat) :
    self.OnSafePoint allocatedBytes s1 = self.OnSafePoint allocatedBytes s2 :=
  rfl

/-! ## Frame of the operations -/

theorem OnSafePoint_snd_timeOfLastGcUs (self : GCThreadData) (a s : Nat) :
    (self.OnSafePoint a s).2.timeOfLastGcUs_ = self.timeOfLastGcUs_ := by
  unfold GCThreadData.OnSafePoint
  split <;> rfl

theorem OnSafePoint_snd_config (self : GCThreadData) (a s : Nat) :
    (self.OnSafePoint a s).2.config_ = self.config_ := by
  unfold GCThreadData.OnSafePoint
  split <;> rfl

theorem OnSafePoint_fst_of_le (self : GCThreadData) (a s : Nat)
    (h : a ≤ self.config_.allocationThresholdBytes) :
    (self.OnSafePoint a s).1 =
      decide (uint64Sub self.currentTimeCallbackUs_.now self.timeOfLastGcUs_
        ≥ self.config_.cooldownThresholdUs) := by
  have hnot : ¬ a > self.config_.allocationThresholdBytes := by omega
  simp only [GCThreadData.OnSafePoint, hnot, if_false, CurrentTimeCallback.call]

theorem OnSafePoint_fst_of_gt (self : GCThreadData) (a s : Nat)
    (h : a > self.config_.allocationThresholdBytes) :
    (self.OnSafePoint a s).1 = true := by
  simp only [GCThreadData.OnSafePoint, h, if_true]

theorem ClockAhead_new (config : GCSchedulerConfig) (clock : CurrentTimeCallback)
    (hmono : ∀ k, clock.calls ≤ k → clock.readings k ≤ clock.readings (k + 1)) :
    ClockAhead (GCThreadData.new config clock) := by
  refine ⟨fun k hk => hmono k ?_, hmono clock.calls le_rfl⟩
  simp only [GCThreadData.new, CurrentTimeCallback.call] at hk
  omega

theorem ClockAhead_OnSafePoint (g : GCThreadData) (a s : Nat) (h : ClockAhead g) :
    ClockAhead (g.OnSafePoint a s).2 := by
  unfold GCThreadData.OnSafePoint
  split
  · exact h
  · refine ⟨fun k hk => h.1 k ?_, le_trans h.2 (h.1 _ le_rfl)⟩
    simp only [CurrentTimeCallback.call] at hk
    omega

theorem ClockAhead_OnPerformFullGC (g : GCThreadData) (h : ClockAhead g) :
    ClockAhead g.OnPerformFullGC := by
  refine ⟨fun k hk => h.1 k ?_, h.1 _ le_rfl⟩
  simp only [GCThreadData.OnPerformFullGC, CurrentTimeCallback.call] at hk
  omega

theorem Operation.run_step (op : Operation) (scheduler : GCScheduler)
    (h : ClockAhead scheduler.gcThreadData_) :
    ClockAhead (op.run scheduler).gcThreadData_ ∧
      scheduler.gcThreadData_.timeOfLastGcUs_ ≤ (op.run scheduler).gcThreadData_.timeOfLastGcUs_ := by
  cases op with
  | onSafePoint a s =>
    exact ⟨ClockAhead_OnSafePoint _ a s h, le_of_eq (OnSafePoint_snd_timeOfLastGcUs _ a s).symm⟩
  | onPerformFullGC =>
    exact ⟨ClockAhead_OnPerformFullGC _ h, h.2⟩
  | onSafePointSlowPath a bt s st =>
    exact ⟨ClockAhead_OnSafePoint _ a s h, le_of_eq (OnSafePoint_snd_timeOfLastGcUs _ a s).symm⟩

theorem Operation.runAll_ClockAhead (ops : List Operation) (scheduler : GCScheduler)
    (h : ClockAhead scheduler.gcThreadData_) :
    ClockAhead (Operation.runAll ops scheduler).gcThreadData_ := by
  induction ops generalizing scheduler with
  | nil => exact h
  | cons op rest ih => exact ih _ (Operation.run_step op scheduler h).1

/-! ## Two slow-path checks in a row -/

/-- C11: for a `ThreadData` made by `NewThreadData()`, whatever its numeric members hold, two
calls of `OnSafePointSlowPath()` in immediate succession, nothing recorded in between: when
at the second call the time elapsed since `timeOfLastGcUs_`, the unsigned 64-bit difference
the code computes from the reading of the time source, is less than
`config.cooldownThresholdUs`, the second call returns false, whatever the first returned. -/
theorem OnSafePointSlowPath_twice_second_false (scheduler : GCScheduler) (a bt s st : Nat)
    (hwindow :
      uint64Sub
          ((NewThreadData a bt s st).OnSafePointSlowPath
            scheduler).2.2.gcThreadData_.currentTimeCallbackUs_.now
          ((NewThreadData a bt s st).OnSafePointSlowPath
            scheduler).2.2.gcThreadData_.timeOfLastGcUs_
        < ((NewThreadData a bt s st).OnSafePointSlowPath
            scheduler).2.2.config_.cooldownThresholdUs) :
    (ThreadData.OnSafePointSlowPath
        ((NewThreadData a bt s st).OnSafePointSlowPath scheduler).2.1
        ((NewThreadData a bt s st).OnSafePointSlowPath scheduler).2.2).1 = false := by
  have hsecond :
      (ThreadData.OnSafePointSlowPath
          ((NewThreadData a bt s st).OnSafePointSlowPath scheduler).2.1
          ((NewThreadData a bt s st).OnSafePointSlowPath scheduler).2.2).1
        = (((NewThreadData a bt s st).OnSafePointSlowPath
            scheduler).2.2.gcThreadData_.OnSafePoint 0 0).1 := rfl
  rw [hsecond, OnSafePoint_fst_of_le _ 0 0 (Nat.zero_le _)]
  simp only [ge_iff_le, decide_eq_false_iff_not, not_le]
  exact hwindow

/-- Witness of C11: threshold 10000, cooldown 500000, last collection at 7, the time source
reading 7, a thread with 12000 bytes: the elapsed time at the second check is 0, the first
check gives true and the second false. -/
theorem OnSafePointSlowPath_twice_second_false_witness :
    uint64Sub
        ((NewThreadData 12000 10000 0 100000).OnSafePointSlowPath
          { gcThreadData_ := timerAt scenarioConfig 7 7 }).2.2.gcThreadData_.currentTimeCallbackUs_.now
        ((NewThreadData 12000 10000 0 100000).OnSafePointSlowPath
          { gcThreadData_ := timerAt scenarioConfig 7 7 }).2.2.gcThreadData_.timeOfLastGcUs_ = 0 ∧
      ((NewThreadData 12000 10000 0 100000).OnSafePointSlowPath
        { gcThreadData_ := timerAt scenarioConfig 7 7 }).1 = true ∧
      (ThreadData.OnSafePointSlowPath
        ((NewThreadData 12000 10000 0 100000).OnSafePointSlowPath
          { gcThreadData_ := timerAt scenarioConfig 7 7 }).2.1
        ((NewThreadData 12000 10000 0 100000).OnSafePointSlowPath
          { gcThreadData_ := timerAt scenarioConfig 7 7 }).2.2).1 = false :=
  ⟨by decide, by decide,
    OnSafePointSlowPath_twice_second_false { gcThreadData_ := timerAt scenarioConfig 7 7 }
      12000 10000 0 100000 (by decide)⟩

/-! ## The completion hook and the time of the last collection -/

/-- C12: `GCThreadData::OnPerformFullGC()` sets `timeOfLastGcUs_` to the value the time
source returns at that call and leaves the three members of the configuration unchanged. -/
theorem OnPerformFullGC_sets_timeOfLastGcUs (self : GCThreadData) :
    self.OnPerformFullGC.timeOfLastGcUs_ = self.currentTimeCallbackUs_.call.1 ∧
      self.OnPerformFullGC.config_.threshold = self.config_.threshold ∧
      self.OnPerformFullGC.config_.allocationThresholdBytes
        = self.config_.allocationThresholdBytes ∧
      self.OnPerformFullGC.config_.cooldownThresholdUs = self.config_.cooldownThresholdUs :=
  ⟨rfl, rfl, rfl, rfl⟩

/-- C13: `timeOfLastGcUs_` never decreases. A timer is constructed over a time source whose
successive readings never decrease; after any sequence of operations (direct calls of
`OnSafePoint`, calls of `OnPerformFullGC`, slow-path checks of threads), one more operation
leaves `timeOfLastGcUs_` greater than or equal to its value before that operation. -/
theorem timeOfLastGcUs_nondecreasing (config : GCSchedulerConfig)
    (clock : CurrentTimeCallback)
    (hmono : ∀ k, clock.calls ≤ k → clock.readings k ≤ clock.readings (k + 1))
    (ops : List Operation) (op : Operation) :
    (Operation.runAll ops
        { gcThreadData_ := GCThreadData.new config clock }).gcThreadData_.timeOfLastGcUs_
      ≤ (op.run (Operation.runAll ops
          { gcThreadData_ := GCThreadData.new config clock })).gcThreadData_.timeOfLastGcUs_ :=
  (Operation.run_step op _
    (Operation.runAll_ClockAhead ops _ (ClockAhead_new config clock hmono))).2

/-- Witness of C13: a time source reading 1000, 1001, 1002, ...; after a direct check, a
collection and a slow-path check, one more collection moves `timeOfLastGcUs_` from 1002 to
1004. -/
theorem timeOfLastGcUs_nondecreasing_witness :
    (Operation.runAll
        [Operation.onSafePoint 500 0, Operation.onPerformFullGC,
          Operation.onSafePointSlowPath 500 10000 3 100000]
        { gcThreadData_ := GCThreadData.new scenarioConfig
            (tickingClock 1000) }).gcThreadData_.timeOfLastGcUs_ = 1002 ∧
      (Operation.onPerformFullGC.run (Operation.runAll
        [Operation.onSafePoint 500 0, Operation.onPerformFullGC,
          Operation.onSafePointSlowPath 500 10000 3 100000]
        { gcThreadData_ := GCThreadData.new scenarioConfig
            (tickingClock 1000) })).gcThreadData_.timeOfLastGcUs_ = 1004 ∧
      (Operation.runAll
        [Operation.onSafePoint 500 0, Operation.onPerformFullGC,
          Operation.onSafePointSlowPath 500 10000 3 100000]
        { gcThreadData_ := GCThreadData.new scenarioConfig
            (tickingClock 1000) }).gcThreadData_.timeOfLastGcUs_
        ≤ (Operation.onPerformFullGC.run (Operation.runAll
          [Operation.onSafePoint 500 0, Operation.onPerformFullGC,
            Operation.onSafePointSlowPath 500 10000 3 100000]
          { gcThreadData_ := GCThreadData.new scenarioConfig
              (tickingClock 1000) })).gcThreadData_.timeOfLastGcUs_ :=
  ⟨by decide, by decide,
    timeOfLastGcUs_nondecreasing scenarioConfig (tickingClock 1000)
      (fun k _ => Nat.le_succ (1000 + k))
      [Operation.onSafePoint 500 0, Operation.onPerformFullGC,
        Operation.onSafePointSlowPath 500 10000 3 100000]
      Operation.onPerformFullGC⟩

/-! ## Construction of the configuration -/

/-- C14: when `compiler::gcAggressive()` is true, the constructed `GCSchedulerConfig` has
`threshold` 1000, `allocationThresholdBytes` 10000 and `cooldownThresholdUs` 0, whatever the
default values of the members are. -/
theorem GCSchedulerConfig_new_aggressive (gcAggressive : Bool) (defaults : GCSchedulerConfig)
    (h : gcAggressive = true) :
    (GCSchedulerConfig.new gcAggressive defaults).threshold = 1000 ∧
      (GCSchedulerConfig.new gcAggressive defaults).allocationThresholdBytes = 10000 ∧
      (GCSchedulerConfig.new gcAggressive defaults).cooldownThresholdUs = 0 := by
  subst h
  exact ⟨rfl, rfl, rfl⟩

/-- Witness of C14: the aggressive mode over the defaults of the scenarios. -/
theorem GCSchedulerConfig_new_aggressive_witness :
    (GCSchedulerConfig.new true scenarioConfig).threshold = 1000 ∧
      (GCSchedulerConfig.new true scenarioConfig).allocationThresholdBytes = 10000 ∧
      (GCSchedulerConfig.new true scenarioConfig).cooldownThresholdUs = 0 :=
  GCSchedulerConfig_new_aggressive true scenarioConfig rfl

/-! ## Consulting the policy -/

/-- C15: consulting the policy does not change the shared state. `GCThreadData::OnSafePoint`
leaves `timeOfLastGcUs_` and the three members of the configuration as they were, and so does
the slow path of a thread made by `NewThreadData()`; of the thread itself only the counters
and cached thresholds can change, its configuration reference and its callback stay. -/
theorem consulting_leaves_shared_state (self : GCThreadData) (scheduler : GCScheduler)
    (allocatedBytes safePointsCounter a bt s st : Nat) :
    ((self.OnSafePoint allocatedBytes safePointsCounter).2.timeOfLastGcUs_
        = self.timeOfLastGcUs_ ∧
      (self.OnSafePoint allocatedBytes safePointsCounter).2.config_.threshold
        = self.config_.threshold ∧
      (self.OnSafePoint allocatedBytes safePointsCounter).2.config_.allocationThresholdBytes
        = self.config_.allocationThresholdBytes ∧
      (self.OnSafePoint allocatedBytes safePointsCounter).2.config_.cooldownThresholdUs
        = self.config_.cooldownThresholdUs) ∧
    (((NewThreadData a bt s st).OnSafePointSlowPath scheduler).2.2.gcThreadData_.timeOfLastGcUs_
        = scheduler.gcThreadData_.timeOfLastGcUs_ ∧
      ((NewThreadData a bt s st).OnSafePointSlowPath scheduler).2.2.config_.threshold
        = scheduler.config_.threshold ∧
      ((NewThreadData a bt s st).OnSafePointSlowPath
          scheduler).2.2.config_.allocationThresholdBytes
        = scheduler.config_.allocationThresholdBytes ∧
      ((NewThreadData a bt s st).OnSafePointSlowPath scheduler).2.2.config_.cooldownThresholdUs
        = scheduler.config_.cooldownThresholdUs) ∧
    (((NewThreadData a bt s st).OnSafePointSlowPath scheduler).2.1.config_ scheduler
        = (NewThreadData a bt s st).config_ scheduler ∧
      ((NewThreadData a bt s st).OnSafePointSlowPath scheduler).2.1.onSafePoint_
        = (NewThreadData a bt s st).onSafePoint_) := by
  have hconfig := OnSafePoint_snd_config self allocatedBytes safePointsCounter
  have hshared : ((NewThreadData a bt s st).OnSafePointSlowPath scheduler).2.2.config_
      = scheduler.config_ := OnSafePoint_snd_config scheduler.gcThreadData_ a s
  refine ⟨⟨OnSafePoint_snd_timeOfLastGcUs self allocatedBytes safePointsCounter, ?_, ?_, ?_⟩,
    ⟨OnSafePoint_snd_timeOfLastGcUs scheduler.gcThreadData_ a s, ?_, ?_, ?_⟩, rfl, rfl⟩
  · rw [hconfig]
  · rw [hconfig]
  · rw [hconfig]
  · rw [hshared]
  · rw [hshared]
  · rw [hshared]

/-- C16: the decision is monotone in the allocation count: on one timer state, if
`OnSafePoint(b1, s)` returns true and `b1 <= b2`, then `OnSafePoint(b2, s)` returns true. -/
theorem OnSafePoint_monotone_in_allocatedBytes (self : GCThreadData) (b1 b2 s : Nat)
    (hle : b1 ≤ b2) (h : (self.OnSafePoint b1 s).1 = true) :
    (self.OnSafePoint b2 s).1 = true := by
  by_cases h2 : b2 > self.config_.allocationThresholdBytes
  · exact OnSafePoint_fst_of_gt self b2 s h2
  · rw [OnSafePoint_fst_of_le self b2 s (by omega)]
    rw [OnSafePoint_fst_of_le self b1 s (by omega)] at h
    exact h

/-- Witness of C16: cooldown 500000 elapsed (last collection at 1000, reading 601000), 500
bytes give true and so do 9000. -/
theorem OnSafePoint_monotone_in_allocatedBytes_witness :
    ((timerAt scenarioConfig 1000 601000).OnSafePoint 500 2).1 = true ∧
      ((timerAt scenarioConfig 1000 601000).OnSafePoint 9000 2).1 = true :=
  ⟨by decide,
    OnSafePoint_monotone_in_allocatedBytes (timerAt scenarioConfig 1000 601000) 500 9000 2
      (by decide) (by decide)⟩

/-- C17: construction starts the cooldown window: the constructor of `GCThreadData` sets
`timeOfLastGcUs_` to the reading taken at construction, and with a positive cooldown a call
`OnSafePoint(b, s)` with `b` not above the allocation threshold, made while the time source
still returns the value read at construction, returns false. -/
theorem OnSafePoint_false_after_construction (config : GCSchedulerConfig)
    (clock : CurrentTimeCallback) (b s : Nat)
    (hcooldown : 0 < config.cooldownThresholdUs)
    (hbytes : b ≤ config.allocationThresholdBytes)
    (hsame : (GCThreadData.new config clock).currentTimeCallbackUs_.now = clock.call.1) :
    (GCThreadData.new config clock).timeOfLastGcUs_ = clock.call.1 ∧
      ((GCThreadData.new config clock).OnSafePoint b s).1 = false := by
  refine ⟨rfl, ?_⟩
  rw [OnSafePoint_fst_of_le _ b s hbytes, hsame]
  have hzero : uint64Sub clock.call.1 (GCThreadData.new config clock).timeOfLastGcUs_ = 0 :=
    uint64Sub_self _
  have hcd : (GCThreadData.new config clock).config_.cooldownThresholdUs
      = config.cooldownThresholdUs := rfl
  simp only [hzero, hcd, ge_iff_le, Nat.le_zero_eq, decide_eq_false_iff_not]
  omega

/-- Witness of C17: cooldown 500000, a time source that reads 42 at every call, 500 bytes. -/
theorem OnSafePoint_false_after_construction_witness :
    (GCThreadData.new scenarioConfig (steadyClock 42)).timeOfLastGcUs_ = 42 ∧
      ((GCThreadData.new scenarioConfig (steadyClock 42)).OnSafePoint 500 0).1 = false :=
  OnSafePoint_false_after_construction scenarioConfig (steadyClock 42) 500 0
    (by decide) (by decide) rfl

/-- C18: once armed, the trigger stays armed until a collection completes: if `OnSafePoint`
returns true when the time source reads `t1`, not behind `timeOfLastGcUs_`, then on the same
timer (same configuration and same `timeOfLastGcUs_`, no `OnPerformFullGC()` in between) it
returns true when the time source reads any `t2` with `t1 <= t2 < 2 ^ 64`. -/
theorem OnSafePoint_stays_armed (self : GCThreadData) (later : CurrentTimeCallback)
    (allocatedBytes s1 s2 : Nat)
    (ht1 : self.timeOfLastGcUs_ ≤ self.currentTimeCallbackUs_.now)
    (ht2 : self.currentTimeCallbackUs_.now ≤ later.now)
    (hrange : later.now < 2 ^ 64)
    (hfired : (self.OnSafePoint allocatedBytes s1).1 = true) :
    (GCThreadData.OnSafePoint { self with currentTimeCallbackUs_ := later }
      allocatedBytes s2).1 = true := by
  by_cases hb : allocatedBytes > self.config_.allocationThresholdBytes
  · exact OnSafePoint_fst_of_gt _ allocatedBytes s2 hb
  · rw [OnSafePoint_fst_of_le self allocatedBytes s1 (by omega),
      uint64Sub_of_le ht1 (by omega)] at hfired
    have hlater : self.timeOfLastGcUs_ ≤ later.now := by omega
    rw [OnSafePoint_fst_of_le _ allocatedBytes s2 (by simpa using hb)]
    simp only [uint64Sub_of_le hlater hrange, ge_iff_le, decide_eq_true_eq] at hfired ⊢
    omega

/-- Witness of C18: cooldown 500000, last collection at 1000: armed at 601000, still armed at
700000. -/
theorem OnSafePoint_stays_armed_witness :
    ((timerAt scenarioConfig 1000 601000).OnSafePoint 500 0).1 = true ∧
      (GCThreadData.OnSafePoint
        { timerAt scenarioConfig 1000 601000 with currentTimeCallbackUs_ := steadyClock 700000 }
        500 0).1 = true :=
  ⟨by decide,
    OnSafePoint_stays_armed (timerAt scenarioConfig 1000 601000) (steadyClock 700000) 500 0 0
      (by decide) (by decide) (by decide) (by decide)⟩

end gc
